import Mathlib

/-!
Verification of the apiCheck repository (Vedic Kundli chart service).

Shallow embedding of `kundlilabs_vPROD.py` and the `/kundli` endpoint of
`app.py`.  Python floats are modelled as rationals (ℚ); the Python `%`
operator on floats (sign follows the divisor) is modelled by `pymod`;
fallible Python code (functions that can raise) is modelled in
`Except PyErr`; the external collaborators (geopy geocoder,
TimezoneFinder, pytz localisation, Swiss Ephemeris) are modelled as an
explicit environment record `Env` of black-box functions, following the
spec's §6 external-interface contracts.
-/

/-- Python's `%` on floats with a positive modulus:
`x % m = x - m * floor(x / m)`, the representative in `[0, m)`. -/
def pymod (x m : ℚ) : ℚ := x - m * ⌊x / m⌋

/-- Source: `normalize_degree` — "Normalize degree to 0-360 range",
`degree % 360`. -/
def normalize_degree (degree : ℚ) : ℚ := pymod degree 360

/-- Source: the `RASHIS` constant, the 12 Vedic zodiac signs. -/
def RASHIS : List String :=
  ["Aries", "Taurus", "Gemini", "Cancer", "Leo", "Virgo",
   "Libra", "Scorpio", "Sagittarius", "Capricorn", "Aquarius", "Pisces"]

/-- The index `int(normalized_degree // 30)` computed by `get_rashi`
(Python float floor-division, exact on these values). -/
def rashi_index (degree : ℚ) : ℤ := ⌊normalize_degree degree / 30⌋

/-- Source: `get_rashi` — "Convert degree (0-360) to Rashi name".
`RASHIS[rashi_index]`; Python list indexing raises on an out-of-range
index, which `rashi_index_nonneg`/`rashi_index_lt` prove impossible,
so the total `getD` access agrees with the source. -/
def get_rashi (degree : ℚ) : String := RASHIS.getD (rashi_index degree).toNat ""

/-- Source: `get_degree_within_sign` — `normalize_degree(degree) % 30`. -/
def get_degree_within_sign (degree : ℚ) : ℚ := pymod (normalize_degree degree) 30

/-- Source: `get_sign_name` — "same as get_rashi". -/
def get_sign_name (degree : ℚ) : String := get_rashi degree

/-- Source line 179: `abs((planet_degree - sun_degree + 180) % 360 - 180)`,
the angular separation used by the combustion rule. -/
def angular_separation (a b : ℚ) : ℚ := |pymod (a - b + 180) 360 - 180|

/-! ### Arithmetic facts about `pymod` -/

theorem pymod_eq_fract (x m : ℚ) (hm : m ≠ 0) :
    pymod x m = m * Int.fract (x / m) := by
  unfold pymod Int.fract
  field_simp

theorem pymod_nonneg (x m : ℚ) (hm : 0 < m) : 0 ≤ pymod x m := by
  rw [pymod_eq_fract x m (ne_of_gt hm)]
  exact mul_nonneg (le_of_lt hm) (Int.fract_nonneg _)

theorem pymod_lt (x m : ℚ) (hm : 0 < m) : pymod x m < m := by
  rw [pymod_eq_fract x m (ne_of_gt hm)]
  calc m * Int.fract (x / m) < m * 1 :=
        (mul_lt_mul_left hm).mpr (Int.fract_lt_one _)
    _ = m := mul_one m

theorem pymod_add_int_mul (x m : ℚ) (k : ℤ) (hm : m ≠ 0) :
    pymod (x + m * k) m = pymod x m := by
  rw [pymod_eq_fract _ m hm, pymod_eq_fract x m hm]
  have h : (x + m * k) / m = x / m + (k : ℚ) := by field_simp; ring
  rw [h, Int.fract_add_int]

theorem pymod_neg (x m : ℚ) (hm : m ≠ 0) :
    pymod (-x) m = if pymod x m = 0 then 0 else m - pymod x m := by
  rw [pymod_eq_fract _ m hm, pymod_eq_fract x m hm]
  have hneg : (-x) / m = -(x / m) := by ring
  rw [hneg]
  by_cases h : Int.fract (x / m) = 0
  · rw [Int.fract_neg_eq_zero.mpr h, h]
    simp
  · rw [Int.fract_neg h]
    have : ¬ (m * Int.fract (x / m) = 0) := by
      intro hc
      rcases mul_eq_zero.mp hc with h1 | h1
      · exact hm h1
      · exact h h1
    rw [if_neg this]
    ring

theorem normalize_degree_nonneg (d : ℚ) : 0 ≤ normalize_degree d :=
  pymod_nonneg d 360 (by norm_num)

theorem normalize_degree_lt (d : ℚ) : normalize_degree d < 360 :=
  pymod_lt d 360 (by norm_num)

theorem normalize_degree_add_360k (d : ℚ) (k : ℤ) :
    normalize_degree (d + 360 * k) = normalize_degree d :=
  pymod_add_int_mul d 360 k (by norm_num)

theorem rashi_index_nonneg (d : ℚ) : 0 ≤ rashi_index d := by
  unfold rashi_index
  rw [Int.floor_nonneg]
  exact div_nonneg (normalize_degree_nonneg d) (by norm_num)

theorem rashi_index_lt (d : ℚ) : rashi_index d < 12 := by
  unfold rashi_index
  rw [Int.floor_lt]
  have h := normalize_degree_lt d
  push_cast
  linarith

theorem get_rashi_mem (d : ℚ) : get_rashi d ∈ RASHIS := by
  unfold get_rashi
  have hlt : (rashi_index d).toNat < RASHIS.length := by
    have h12 := rashi_index_lt d
    have h0 := rashi_index_nonneg d
    simp only [RASHIS, List.length]
    omega
  rw [List.getD_eq_get?, List.get?_eq_get hlt]
  exact List.get_mem _ _ _

theorem get_rashi_period (d : ℚ) (k : ℤ) :
    get_rashi (d + 360 * k) = get_rashi d := by
  unfold get_rashi rashi_index
  rw [normalize_degree_add_360k]

theorem angular_separation_comm (a b : ℚ) :
    angular_separation a b = angular_separation b a := by
  unfold angular_separation
  have key : b - a + 180 = -(a - b + 180) + 360 * (1 : ℤ) := by push_cast; ring
  rw [key, pymod_add_int_mul _ 360 1 (by norm_num),
    pymod_neg (a - b + 180) 360 (by norm_num)]
  by_cases h : pymod (a - b + 180) 360 = 0
  · rw [if_pos h, h]
  · rw [if_neg h]
    rw [show 360 - pymod (a - b + 180) 360 - 180
          = -(pymod (a - b + 180) 360 - 180) by ring, abs_neg]

theorem angular_separation_nonneg (a b : ℚ) : 0 ≤ angular_separation a b :=
  abs_nonneg _

theorem angular_separation_le_180 (a b : ℚ) : angular_separation a b ≤ 180 := by
  unfold angular_separation
  have h0 := pymod_nonneg (a - b + 180) 360 (by norm_num)
  have h1 := pymod_lt (a - b + 180) 360 (by norm_num)
  rw [abs_le]
  constructor <;> linarith

/-! ### Data model -/

/-- A Python runtime value as far as the dynamic comparisons in the source
need: Python `==` between a `str` and a `float` is `False`, which is
exactly structural disequality between the two constructors. -/
inductive PyVal where
  | str : String → PyVal
  | num : ℚ → PyVal
deriving DecidableEq

/-- A raised Python exception, tagged with its type. -/
inductive PyErr where
  | valueError (msg : String)
  | indexError (msg : String)
deriving DecidableEq

/-- `str(e)` of an exception: its message. -/
def PyErr.message : PyErr → String
  | .valueError m => m
  | .indexError m => m

/-- One `swe.calc_ut` result: `xx[0]` (ecliptic longitude) and `xx[3]`
(daily speed).  The source guards `len(xx) > 3`; the Swiss Ephemeris
tuple always has 6 entries, so the speed is always present. -/
structure EphemOut where
  lon : ℚ
  speed : ℚ
deriving DecidableEq

/-- One entry of the source's `planet_data` dict. -/
structure PlanetData where
  degree : ℚ
  rashi : String
  retrograde : Bool
  combust : Bool
deriving DecidableEq

/-- A parsed JSON request body: ordered key/value pairs with string
values (the API contract sends string fields). -/
def ReqData := List (String × String)

/-- The external collaborators of spec §6, as black-box functions:
geopy's `Nominatim.geocode` (None when unresolvable), TimezoneFinder's
`timezone_at(lng, lat)`, `strptime` + `pytz` localisation (raises on a
malformed date/time), `swe.julday`, `swe.calc_ut` under sidereal flags,
and the `swe.houses_ex` cusp tuple (the unused `ascmc` part is
dropped).  The process-wide `swe.set_sid_mode(SIDM_LAHIRI)` calls are
absorbed into the meaning of `calc_ut`/`houses_ex`. -/
structure Env where
  geocode : String → Option (ℚ × ℚ)
  timezone_at : ℚ → ℚ → Option String
  localize : String → String → String → Except PyErr ℚ
  julday : ℚ → ℚ
  calc_ut : ℚ → String → Except PyErr EphemOut
  houses_ex : ℚ → ℚ → ℚ → Except PyErr (List ℚ)

/-- The insertion order of the source's `PLANETS` dict. -/
def PLANET_NAMES : List String :=
  ["Sun", "Moon", "Mars", "Mercury", "Jupiter", "Venus", "Saturn", "Rahu"]

/-- Python dict read `d[k]`; at every call site in the source the key is
present (a missing key would raise `KeyError`), so the default is never
the returned value in any reachable state. -/
def dictGet (l : List (String × PlanetData)) (k : String) : PlanetData :=
  (l.lookup k).getD ⟨0, "", false, false⟩

/-- Python list indexing `l[i]`, which raises `IndexError` when out of
range. -/
def pyIndex {α : Type} (l : List α) (i : Nat) : Except PyErr α :=
  match l.get? i with
  | some a => .ok a
  | none => .error (.indexError "list index out of range")

theorem except_bind_ok {α β : Type} (a : α) (f : α → Except PyErr β) :
    (Except.ok a >>= f) = f a := rfl

theorem except_bind_err {α β : Type} (e : PyErr) (f : α → Except PyErr β) :
    ((Except.error e : Except PyErr α) >>= f) = .error e := rfl

/-- Monadic map over `Except`, evaluating elements left to right and
propagating the first raised exception — the semantics of the source's
`for` loops whose bodies can raise. -/
def mapME {α β : Type} (f : α → Except PyErr β) : List α → Except PyErr (List β)
  | [] => .ok []
  | a :: l => do
      let b ← f a
      let bs ← mapME f l
      .ok (b :: bs)

/-! ### Chart Engine — planetary positions (source `get_planet_positions`) -/

/-- The pure tail of `get_planet_positions`, applied to the raw
`swe.calc_ut` outputs of the 8 directly computed bodies: builds the
per-planet dict entries, derives Ketu from Rahu, then runs the
combustion pass.  (In the source each entry is built right after its
`calc_ut` call; since building raises nothing, the returned dict and
the propagated exception are identical to doing all calls first.) -/
def get_planet_positions_pure (outs : List (String × EphemOut)) :
    List (String × PlanetData) :=
  let base := outs.map (fun p =>
    (p.1, ({ degree := normalize_degree p.2.lon,
             rashi := get_rashi (normalize_degree p.2.lon),
             retrograde := decide (p.2.speed < (0 : ℚ)),
             combust := false } : PlanetData)))
  let sun_degree := (dictGet base "Sun").degree
  let rahu_degree := (dictGet base "Rahu").degree
  let ketu_degree := normalize_degree (rahu_degree + 180)
  let withKetu := base ++
    [("Ketu", ({ degree := ketu_degree, rashi := get_rashi ketu_degree,
                 retrograde := true, combust := false } : PlanetData))]
  withKetu.map (fun q =>
    if q.1 = "Sun" ∨ q.1 = "Rahu" ∨ q.1 = "Ketu" then q
    else (q.1, { q.2 with
      combust := decide (angular_separation q.2.degree sun_degree ≤ 10) }))

/-- Source `get_planet_positions`: one `swe.calc_ut` per entry of
`PLANETS` in dict order, exceptions propagating. -/
def get_planet_positions (env : Env) (jd_ut : ℚ) :
    Except PyErr (List (String × PlanetData)) := do
  let sun ← env.calc_ut jd_ut "Sun"
  let moon ← env.calc_ut jd_ut "Moon"
  let mars ← env.calc_ut jd_ut "Mars"
  let mercury ← env.calc_ut jd_ut "Mercury"
  let jupiter ← env.calc_ut jd_ut "Jupiter"
  let venus ← env.calc_ut jd_ut "Venus"
  let saturn ← env.calc_ut jd_ut "Saturn"
  let rahu ← env.calc_ut jd_ut "Rahu"
  .ok (get_planet_positions_pure
    [("Sun", sun), ("Moon", moon), ("Mars", mars), ("Mercury", mercury),
     ("Jupiter", jupiter), ("Venus", venus), ("Saturn", saturn),
     ("Rahu", rahu)])

/-! ### Chart Engine — houses (source `get_houses`, `get_house_signs`,
`assign_planets_to_houses`) -/

/-- The cusp-array trimming of source `get_houses`: `cusps[1:13]` when
the tuple has 13 entries, `cusps[0:12]` when 12, else the whole list. -/
def trim_cusps (cusps : List ℚ) : List ℚ :=
  if cusps.length = 13 then (cusps.drop 1).take 12
  else if cusps.length = 12 then cusps.take 12
  else cusps

/-- Source `get_houses`: `swe.houses_ex` under sidereal mode, then the
length-dependent trimming.  The unused `ascmc` return is dropped. -/
def get_houses (env : Env) (jd_ut lat lon : ℚ) : Except PyErr (List ℚ) := do
  let cusps ← env.houses_ex jd_ut lat lon
  .ok (trim_cusps cusps)

/-- Source `get_house_signs`: each house's sign is derived from its own
cusp degree independently (`get_rashi(normalize_degree(cusp))`),
appended in cusp order. -/
def get_house_signs (house_cusps : List ℚ) : List String :=
  house_cusps.foldl
    (fun house_signs cusp_degree =>
      house_signs ++ [get_rashi (normalize_degree cusp_degree)]) []

/-- The inner scan of `assign_planets_to_houses`:
`for house_num, house_rashi in enumerate(house_signs, 1): if
planet_rashi == house_rashi: ...; break` — the 1-based index of the
first entry equal (under Python `==`) to the planet's rashi string. -/
def first_match_house (planet_rashi : String) :
    List PyVal → Nat → Option Nat
  | [], _ => none
  | s :: rest, n =>
      if PyVal.str planet_rashi = s then some n
      else first_match_house planet_rashi rest (n + 1)

/-- Source `assign_planets_to_houses`: starts from `{1..12: []}` and
appends each planet to the first house whose entry equals the planet's
rashi; a planet with no matching entry is appended nowhere.  The dict
is modelled as a function from house number to planet list. -/
def assign_planets_to_houses (planets : List (String × PlanetData))
    (house_signs : List PyVal) : Nat → List (String × PlanetData) :=
  planets.foldl
    (fun house_planets p =>
      match first_match_house p.2.rashi house_signs 1 with
      | some house_num => fun m =>
          if m = house_num then house_planets m ++ [p] else house_planets m
      | none => house_planets)
    (fun _ => [])

/-! ### Output shapes (source `generate_clean_json_output`,
`generate_kundli_data`) -/

/-- `birth_info` of the clean JSON output.  The source renders
`coordinates` as the string `"lat°, lon°"` with 4 decimals; the pair it
is rendered from is kept, `none` standing for the error placeholder
`""`. -/
structure BirthInfo where
  date : String
  time : String
  place : String
  coordinates : Option (ℚ × ℚ)
deriving DecidableEq

structure LagnaInfo where
  description : String
  rashi : String
deriving DecidableEq

/-- The data behind one `"Name(DD.DDdeg)[R, Combust]"` fragment of a
house's `planets` display string. -/
structure PlanetDisplay where
  name : String
  degree_in_sign : ℚ
  retrograde : Bool
  combust : Bool
deriving DecidableEq

/-- One entry of the clean output's `houses` list; `planets` models the
joined display string, the empty list standing for `""`. -/
structure HouseOut where
  house_number : Nat
  rashi : String
  planets : List PlanetDisplay
deriving DecidableEq

/-- The clean JSON output dict.  A success dict has no `"error"` key
(`error = none`); the except-path dict carries `"error":
"Miscalculation"`. -/
structure CleanResult where
  error : Option String
  birth_info : BirthInfo
  lagna : LagnaInfo
  houses : List HouseOut
deriving DecidableEq

/-- The fixed LAGNA description text of the source. -/
def LAGNA_DESCRIPTION : String :=
  "LAGNA represents the Ascendant or 1st House, which is the zodiac sign rising on the eastern horizon at the time of birth. It determines the overall personality and physical appearance."

/-- The `except Exception` branch of `generate_clean_json_output`: the
generic error structure with empty placeholders. -/
def miscalculation_result : CleanResult :=
  { error := some "Miscalculation",
    birth_info := { date := "", time := "", place := "", coordinates := none },
    lagna := { description := "Miscalculation", rashi := "" },
    houses := [] }

/-- Python `str.zfill(2)`. -/
def zfill2 (s : String) : String :=
  if s.length < 2 then
    String.mk (List.replicate (2 - s.length) '0') ++ s
  else s

/-- Source constants `STATIC_PLACE`, `STATIC_BIRTHDATE`,
`STATIC_BIRTHTIME`. -/
def STATIC_PLACE : String := "Samastipur"

def STATIC_BIRTHDATE : String := "1995-10-09"

def STATIC_BIRTHTIME : String := "8:22"

/-- The field-extraction prologue shared by `generate_clean_json_output`
(and, minus `date_display`, by `generate_kundli_data` and
`display_table_output`): `if birth_data:` is Python truthiness (a
missing or empty dict takes the static branch), each present field
read with `dict.get` defaults and zero-padded with `zfill(2)`.
Returns `(place, birthdate, birthtime, date_display)`. -/
def extract_birth_fields (birth_data : Option ReqData) :
    String × String × String × String :=
  let static_display :=
    let parts := STATIC_BIRTHDATE.splitOn "-"
    parts.getD 2 "" ++ "-" ++ parts.getD 1 "" ++ "-" ++ parts.getD 0 ""
  match birth_data with
  | none => (STATIC_PLACE, STATIC_BIRTHDATE, STATIC_BIRTHTIME, static_display)
  | some bd =>
    if bd.isEmpty then
      (STATIC_PLACE, STATIC_BIRTHDATE, STATIC_BIRTHTIME, static_display)
    else
      let place := (bd.lookup "place").getD STATIC_PLACE
      let day := zfill2 ((bd.lookup "ddd").getD "09")
      let month := zfill2 ((bd.lookup "mmm").getD "10")
      let year := (bd.lookup "yyyy").getD "1995"
      let hour := zfill2 ((bd.lookup "hh").getD "8")
      let minute := zfill2 ((bd.lookup "mm").getD "22")
      (place, year ++ "-" ++ month ++ "-" ++ day, hour ++ ":" ++ minute,
        day ++ "-" ++ month ++ "-" ++ year)

/-- Source `get_location_details`: geocode `place + ", India"`
(`ValueError` when unresolved), look the timezone up from the
coordinates — `tf.timezone_at(lng=lon, lat=lat)`, falsy (`None` or
`""`) meaning failure — then parse and localize the birth datetime. -/
def get_location_details (env : Env) (place_name birthdate birthtime : String) :
    Except PyErr (ℚ × ℚ × String × ℚ) :=
  match env.geocode (place_name ++ ", India") with
  | none => .error (.valueError ("Could not geocode place: " ++ place_name))
  | some ll =>
    match env.timezone_at ll.2 ll.1 with
    | none => .error (.valueError ("Could not determine timezone for: " ++ place_name))
    | some tz =>
      if tz = "" then
        .error (.valueError ("Could not determine timezone for: " ++ place_name))
      else do
        let dt_local ← env.localize birthdate birthtime tz
        .ok (ll.1, ll.2, tz, dt_local)

/-- Source `get_julian_day`: UTC conversion + `swe.julday`, both inside
the black-box time services. -/
def get_julian_day (env : Env) (dt_local : ℚ) : ℚ := env.julday dt_local

/-- The `try` body of `generate_clean_json_output`: the full pipeline,
any raised exception propagating out. -/
def clean_json_body (env : Env) (birth_data : Option ReqData) :
    Except PyErr CleanResult := do
  let f := extract_birth_fields birth_data
  let place := f.1
  let birthdate := f.2.1
  let birthtime := f.2.2.1
  let date_display := f.2.2.2
  let loc ← get_location_details env place birthdate birthtime
  let lat := loc.1
  let lon := loc.2.1
  let jd_ut := get_julian_day env loc.2.2.2
  let planets ← get_planet_positions env jd_ut
  let house_cusps ← get_houses env jd_ut lat lon
  let house_signs := get_house_signs house_cusps
  let house_planets := assign_planets_to_houses planets (house_signs.map PyVal.str)
  let lagna_rashi ← pyIndex house_signs 0
  let houses ← mapME (fun i => do
      let rashi ← pyIndex house_signs i
      .ok ({ house_number := i + 1, rashi := rashi,
             planets := (house_planets (i + 1)).map (fun q =>
               { name := q.1,
                 degree_in_sign := get_degree_within_sign q.2.degree,
                 retrograde := q.2.retrograde,
                 combust := q.2.combust }) } : HouseOut))
    (List.range 12)
  .ok { error := none,
        birth_info := { date := date_display, time := birthtime,
                        place := place, coordinates := some (lat, lon) },
        lagna := { description := LAGNA_DESCRIPTION, rashi := lagna_rashi },
        houses := houses }

/-- Source `generate_clean_json_output`: the pipeline wrapped in
`try/except Exception`, every failure collapsed to the generic
`"Miscalculation"` structure. -/
def generate_clean_json_output (env : Env) (birth_data : Option ReqData) :
    CleanResult :=
  match clean_json_body env birth_data with
  | .ok r => r
  | .error _ => miscalculation_result

/-! ### Source `generate_kundli_data` -/

/-- `round(x, 2)` on the rational model.  (Python's float `round` uses
banker's tie-breaking; the two differ only at exact half-hundredths,
and no verified property depends on the rounded value.) -/
def round2 (q : ℚ) : ℚ := (round (q * 100) : ℤ) / 100

/-- One entry of a house's `planets` list in `generate_kundli_data`. -/
structure KPlanetInfo where
  name : String
  degree : ℚ
  retrograde : Bool
  combust : Bool
deriving DecidableEq

/-- One entry of `result["houses"]` in `generate_kundli_data`. -/
structure KHouse where
  house_number : Nat
  rashi : String
  planets : List KPlanetInfo
deriving DecidableEq

/-- One entry of `result["planets"]` in `generate_kundli_data`. -/
structure KPlanetEntry where
  degree : ℚ
  rashi : String
  degree_in_sign : ℚ
  retrograde : Bool
  combust : Bool
deriving DecidableEq

/-- The success dict of `generate_kundli_data` (`birth_details`,
`houses`, `planets`; the `rashis` section, a dict keyed by sign name
rebuilt from the same data, is not modelled — no verified property
mentions it). -/
structure KundliResult where
  place : String
  date : String
  time : String
  timezone : String
  latitude : ℚ
  longitude : ℚ
  houses : List KHouse
  planets : List (String × KPlanetEntry)
deriving DecidableEq

/-- The `try` body of `generate_kundli_data`.  Note the source defect on
its line 465: `assign_planets_to_houses(planets, house_cusps)` — the
raw cusp-degree floats are passed where `generate_clean_json_output`
passes `house_signs`, so the rashi comparison is `str == float`. -/
def kundli_data_body (env : Env) (birth_data : Option ReqData) :
    Except PyErr KundliResult := do
  let f := extract_birth_fields birth_data
  let place := f.1
  let birthdate := f.2.1
  let birthtime := f.2.2.1
  let loc ← get_location_details env place birthdate birthtime
  let lat := loc.1
  let lon := loc.2.1
  let timezone_str := loc.2.2.1
  let jd_ut := get_julian_day env loc.2.2.2
  let planets ← get_planet_positions env jd_ut
  let house_cusps ← get_houses env jd_ut lat lon
  let house_signs := get_house_signs house_cusps
  let house_planets := assign_planets_to_houses planets (house_cusps.map PyVal.num)
  let houses ← mapME (fun i => do
      let rashi ← pyIndex house_signs i
      .ok ({ house_number := i + 1, rashi := rashi,
             planets := (house_planets (i + 1)).map (fun q =>
               { name := q.1,
                 degree := round2 (get_degree_within_sign q.2.degree),
                 retrograde := q.2.retrograde,
                 combust := q.2.combust }) } : KHouse))
    (List.range 12)
  .ok { place := place, date := birthdate, time := birthtime,
        timezone := timezone_str, latitude := lat, longitude := lon,
        houses := houses,
        planets := planets.map (fun q =>
          (q.1, { degree := round2 q.2.degree,
                  rashi := q.2.rashi,
                  degree_in_sign := round2 (get_degree_within_sign q.2.degree),
                  retrograde := q.2.retrograde,
                  combust := q.2.combust })) }

/-- The result of `generate_kundli_data`: the success dict, or the
`except` branch's `{"error": "Calculation failed: ...",
"birth_details": ...}` dict. -/
inductive KundliOutput where
  | failure (msg : String) (birth_details : Option ReqData)
  | success (r : KundliResult)

/-- Source `generate_kundli_data`: `try` body wrapped by the `except`
branch. -/
def generate_kundli_data (env : Env) (birth_data : Option ReqData) :
    KundliOutput :=
  match kundli_data_body env birth_data with
  | .ok r => .success r
  | .error e => .failure ("Calculation failed: " ++ e.message) birth_data

/-! ### Source `main` and the Flask handlers (`app.py`) -/

/-- Source `main`: a truthy `birth_data` returns
`generate_clean_json_output(birth_data)`; otherwise
`display_table_output()` is called — a printing-only formatter — and
`main` falls off the end, returning Python `None` (`none`). -/
def Kundli.main (env : Env) (birth_data : Option ReqData) : Option CleanResult :=
  match birth_data with
  | some bd => if bd.isEmpty then none else some (generate_clean_json_output env (some bd))
  | none => none

theorem main_truthy (env : Env) (bd : ReqData) (h : ¬ bd.isEmpty = true) :
    Kundli.main env (some bd) = some (generate_clean_json_output env (some bd)) := by
  simp [Kundli.main, h]

/-- The `required_fields` list of the POST handler in `app.py`. -/
def REQUIRED_FIELDS : List String := ["ddd", "mmm", "yyyy", "hh", "mm", "place"]

/-- The `/kundli` handler's possible responses: a 400 client error, the
500 path taken when the computed result carries an `"error"` key, and
the 200 `{"success": true, "kundli_data": result}` wrapper. -/
inductive ApiResponse where
  | clientError (msg : String)
  | calcError (result : CleanResult)
  | success (kundli_data : CleanResult)
deriving DecidableEq

/-- `"variableID" in str(value)`: substring containment. -/
def contains_variable_id (s : String) : Bool :=
  (s.splitOn "variableID").length ≠ 1

/-- The POST branch of the `/kundli` handler, from the point where the
request body has been parsed into a dict: empty-dict rejection, the
Voiceflow template-variable scan, the required-field validation, then
`main(data_json)` (which for the truthy dict reaching it equals
`generate_clean_json_output`, see `main_truthy`), 500 when the result
carries an `"error"` key, 200 otherwise. -/
def kundli_post (env : Env) (data_json : ReqData) : ApiResponse :=
  if data_json.isEmpty then
    .clientError "No JSON data provided or empty JSON"
  else if data_json.any (fun kv => contains_variable_id kv.2) then
    .clientError "Voiceflow template variables detected. Please ensure variables are properly resolved before sending to API."
  else
    let missing := REQUIRED_FIELDS.filter (fun f => (data_json.lookup f).isNone)
    if ¬ missing.isEmpty then
      .clientError ("Missing required fields: " ++ String.intercalate ", " missing)
    else
      let result := generate_clean_json_output env (some data_json)
      if result.error.isSome then .calcError result else .success result

/-- The GET branch's 200 response body:
`{"success": true, "kundli_data": main(), "note": ...}`. -/
structure GetResponse where
  success : Bool
  kundli_data : Option CleanResult
  note : String
deriving DecidableEq

/-- The GET branch of the `/kundli` handler: `result = main()` with no
arguments, jsonified with `kundli_data` set to that result. -/
def kundli_get (env : Env) : GetResponse :=
  { success := true, kundli_data := Kundli.main env none,
    note := "Using static birth data for GET request" }

/-! ### Characterisations of the assignment loop -/

theorem first_match_house_none_iff (r : String) :
    ∀ (signs : List PyVal) (k : Nat),
      first_match_house r signs k = none ↔ ∀ s ∈ signs, PyVal.str r ≠ s := by
  intro signs
  induction signs with
  | nil => intro k; simp [first_match_house]
  | cons s rest ih =>
    intro k
    by_cases hs : PyVal.str r = s
    · simp [first_match_house, hs]
    · simp only [first_match_house, if_neg hs, ih (k + 1), List.mem_cons]
      constructor
      · intro h t ht
        rcases ht with ht | ht
        · rw [ht]; exact hs
        · exact h t ht
      · intro h t ht
        exact h t (Or.inr ht)

theorem first_match_house_spec (r : String) :
    ∀ (signs : List PyVal) (k n : Nat),
      first_match_house r signs k = some n →
      k ≤ n ∧ n - k < signs.length ∧
        signs.get? (n - k) = some (PyVal.str r) ∧
        ∀ j, j < n - k → signs.get? j ≠ some (PyVal.str r) := by
  intro signs
  induction signs with
  | nil => intro k n h; simp [first_match_house] at h
  | cons s rest ih =>
    intro k n h
    by_cases hs : PyVal.str r = s
    · rw [first_match_house, if_pos hs] at h
      injection h with hkn
      subst hkn
      refine ⟨le_refl _, ?_, ?_, ?_⟩
      · simp
      · simp [Nat.sub_self, hs.symm]
      · intro j hj
        simp [Nat.sub_self] at hj
    · rw [first_match_house, if_neg hs] at h
      obtain ⟨hk, hlen, hget, hbefore⟩ := ih (k + 1) n h
      have hkn : k ≤ n := Nat.le_of_succ_le hk
      have hsub : n - k = (n - (k + 1)) + 1 := by omega
      refine ⟨hkn, ?_, ?_, ?_⟩
      · simp only [List.length_cons]; omega
      · rw [hsub]; simpa using hget
      · intro j hj
        cases j with
        | zero =>
          simp only [List.get?]
          intro hc
          injection hc with hc
          exact hs hc.symm
        | succ j' =>
          rw [hsub] at hj
          have hj' : j' < n - (k + 1) := by omega
          simpa using hbefore j' hj'

theorem assign_planets_to_houses_eq_filter
    (planets : List (String × PlanetData)) (signs : List PyVal) :
    ∀ n, assign_planets_to_houses planets signs n
      = planets.filter
          (fun p => decide (first_match_house p.2.rashi signs 1 = some n)) := by
  unfold assign_planets_to_houses
  suffices hgen : ∀ (l : List (String × PlanetData))
      (acc : Nat → List (String × PlanetData)) (n : Nat),
      l.foldl
        (fun house_planets p =>
          match first_match_house p.2.rashi signs 1 with
          | some house_num => fun m =>
              if m = house_num then house_planets m ++ [p] else house_planets m
          | none => house_planets)
        acc n
      = acc n ++ l.filter
          (fun p => decide (first_match_house p.2.rashi signs 1 = some n)) by
    intro n
    simpa using hgen planets (fun _ => []) n
  intro l
  induction l with
  | nil => intro acc n; simp
  | cons p rest ih =>
    intro acc n
    rw [List.foldl_cons, ih]
    rcases hfm : first_match_house p.2.rashi signs 1 with _ | m
    · simp [List.filter_cons, hfm]
    · by_cases hnm : n = m
      · subst hnm
        simp [List.filter_cons, hfm]
      · simp [List.filter_cons, hfm, hnm, Ne.symm hnm]

theorem mem_assign_iff (planets : List (String × PlanetData))
    (signs : List PyVal) (p : String × PlanetData) (n : Nat) :
    p ∈ assign_planets_to_houses planets signs n ↔
      p ∈ planets ∧ first_match_house p.2.rashi signs 1 = some n := by
  rw [assign_planets_to_houses_eq_filter]
  simp

/-! ### Inversion facts for the monadic pipeline -/

theorem mapME_ok_map_rel {α β γ : Type} (f : α → Except PyErr β) (g : β → γ)
    (h : α → γ) (hrel : ∀ x y, f x = .ok y → g y = h x) :
    ∀ (l : List α) (ys : List β), mapME f l = .ok ys → ys.map g = l.map h := by
  intro l
  induction l with
  | nil =>
    intro ys hy
    unfold mapME at hy
    injection hy with hy
    rw [← hy]
    simp
  | cons a rest ih =>
    intro ys hy
    unfold mapME at hy
    rcases hfa : f a with e | b
    · rw [hfa, except_bind_err] at hy
      exact absurd hy (by simp)
    · rw [hfa, except_bind_ok] at hy
      rcases hrest : mapME f rest with e | bs
      · rw [hrest, except_bind_err] at hy
        exact absurd hy (by simp)
      · rw [hrest, except_bind_ok] at hy
        injection hy with hy
        rw [← hy]
        simp only [List.map_cons]
        rw [hrel a b hfa, ih bs hrest]

theorem mapME_ok_forall {α β : Type} (f : α → Except PyErr β)
    (q : β → Prop) (hq : ∀ x y, f x = .ok y → q y) :
    ∀ (l : List α) (ys : List β), mapME f l = .ok ys → ∀ y ∈ ys, q y := by
  intro l
  induction l with
  | nil =>
    intro ys hy
    unfold mapME at hy
    injection hy with hy
    rw [← hy]
    simp
  | cons a rest ih =>
    intro ys hy
    unfold mapME at hy
    rcases hfa : f a with e | b
    · rw [hfa, except_bind_err] at hy
      exact absurd hy (by simp)
    · rw [hfa, except_bind_ok] at hy
      rcases hrest : mapME f rest with e | bs
      · rw [hrest, except_bind_err] at hy
        exact absurd hy (by simp)
      · rw [hrest, except_bind_ok] at hy
        injection hy with hy
        rw [← hy]
        intro y hmem
        rcases List.mem_cons.mp hmem with hmem | hmem
        · rw [hmem]; exact hq a b hfa
        · exact ih bs hrest y hmem

theorem get_planet_positions_ok_inv (env : Env) (jd_ut : ℚ)
    (pd : List (String × PlanetData))
    (h : get_planet_positions env jd_ut = .ok pd) :
    ∃ sun moon mars mercury jupiter venus saturn rahu : EphemOut,
      pd = get_planet_positions_pure
        [("Sun", sun), ("Moon", moon), ("Mars", mars), ("Mercury", mercury),
         ("Jupiter", jupiter), ("Venus", venus), ("Saturn", saturn),
         ("Rahu", rahu)] := by
  unfold get_planet_positions at h
  rcases h1 : env.calc_ut jd_ut "Sun" with e | sun
  · rw [h1, except_bind_err] at h; exact absurd h (by simp)
  rw [h1, except_bind_ok] at h
  rcases h2 : env.calc_ut jd_ut "Moon" with e | moon
  · rw [h2, except_bind_err] at h; exact absurd h (by simp)
  rw [h2, except_bind_ok] at h
  rcases h3 : env.calc_ut jd_ut "Mars" with e | mars
  · rw [h3, except_bind_err] at h; exact absurd h (by simp)
  rw [h3, except_bind_ok] at h
  rcases h4 : env.calc_ut jd_ut "Mercury" with e | mercury
  · rw [h4, except_bind_err] at h; exact absurd h (by simp)
  rw [h4, except_bind_ok] at h
  rcases h5 : env.calc_ut jd_ut "Jupiter" with e | jupiter
  · rw [h5, except_bind_err] at h; exact absurd h (by simp)
  rw [h5, except_bind_ok] at h
  rcases h6 : env.calc_ut jd_ut "Venus" with e | venus
  · rw [h6, except_bind_err] at h; exact absurd h (by simp)
  rw [h6, except_bind_ok] at h
  rcases h7 : env.calc_ut jd_ut "Saturn" with e | saturn
  · rw [h7, except_bind_err] at h; exact absurd h (by simp)
  rw [h7, except_bind_ok] at h
  rcases h8 : env.calc_ut jd_ut "Rahu" with e | rahu
  · rw [h8, except_bind_err] at h; exact absurd h (by simp)
  rw [h8, except_bind_ok] at h
  injection h with h
  exact ⟨sun, moon, mars, mercury, jupiter, venus, saturn, rahu, h.symm⟩

/-! ### Concrete test fixtures shared by the witnesses and
counterexamples -/

/-- The documented default request body. -/
def reqSam : ReqData :=
  [("ddd", "09"), ("mmm", "10"), ("yyyy", "1995"), ("hh", "08"),
   ("mm", "22"), ("place", "Samastipur")]

/-- An environment whose geocoder resolves nothing (geopy returns
`None` for every query); the remaining collaborators behave
normally. -/
def envNoGeo : Env :=
  { geocode := fun _ => none,
    timezone_at := fun _ _ => some "Asia/Kolkata",
    localize := fun _ _ _ => .ok 0,
    julday := fun _ => 2450000,
    calc_ut := fun _ _ => .ok { lon := 100, speed := -1 },
    houses_ex := fun _ _ _ =>
      .ok [0, 0, 30, 60, 90, 120, 150, 180, 210, 240, 270, 300, 330] }

/-- An environment on which every collaborator succeeds, with a 13-entry
`houses_ex` tuple as Swiss Ephemeris returns. -/
def envOK : Env :=
  { geocode := fun _ => some (25, 85),
    timezone_at := fun _ _ => some "Asia/Kolkata",
    localize := fun _ _ _ => .ok 0,
    julday := fun _ => 2450000,
    calc_ut := fun _ _ => .ok { lon := 100, speed := -1 },
    houses_ex := fun _ _ _ =>
      .ok [0, 0, 30, 60, 90, 120, 150, 180, 210, 240, 270, 300, 330] }

/-- The planet dict `get_planet_positions` computes under `envOK`. -/
def pdOK : List (String × PlanetData) :=
  get_planet_positions_pure
    [("Sun", { lon := 100, speed := -1 }), ("Moon", { lon := 100, speed := -1 }),
     ("Mars", { lon := 100, speed := -1 }), ("Mercury", { lon := 100, speed := -1 }),
     ("Jupiter", { lon := 100, speed := -1 }), ("Venus", { lon := 100, speed := -1 }),
     ("Saturn", { lon := 100, speed := -1 }), ("Rahu", { lon := 100, speed := -1 })]

theorem get_planet_positions_envOK : get_planet_positions envOK 0 = .ok pdOK := rfl

/-! ### Claims -/

/-- C7: `get_rashi` is total: invariant under adding any integer
multiple of 360°, always one of the 12 fixed sign names, with
`normalize_degree` landing in `[0, 360)` and the `RASHIS` index
`floor(normalize / 30)` always in bounds. -/
theorem C7_get_rashi_total (d : ℚ) (k : ℤ) :
    get_rashi (d + 360 * k) = get_rashi d ∧
    get_rashi d ∈ RASHIS ∧ RASHIS.length = 12 ∧
    0 ≤ normalize_degree d ∧ normalize_degree d < 360 ∧
    0 ≤ rashi_index d ∧ rashi_index d < 12 :=
  ⟨get_rashi_period d k, get_rashi_mem d, rfl, normalize_degree_nonneg d,
   normalize_degree_lt d, rashi_index_nonneg d, rashi_index_lt d⟩

/-- C5: in every computed planet dict, Ketu's longitude is
`normalize(Rahu + 180)`, Ketu is unconditionally retrograde and never
combust, and Sun and Rahu never report combust either. -/
theorem C5_ketu_derived (env : Env) (jd_ut : ℚ)
    (planet_data : List (String × PlanetData))
    (h : get_planet_positions env jd_ut = .ok planet_data) :
    planet_data.lookup "Ketu" = some
      { degree := normalize_degree ((dictGet planet_data "Rahu").degree + 180),
        rashi := get_rashi
          (normalize_degree ((dictGet planet_data "Rahu").degree + 180)),
        retrograde := true, combust := false }
    ∧ (dictGet planet_data "Sun").combust = false
    ∧ (dictGet planet_data "Rahu").combust = false := by
  obtain ⟨sun, moon, mars, mercury, jupiter, venus, saturn, rahu, rfl⟩ :=
    get_planet_positions_ok_inv env jd_ut planet_data h
  refine ⟨?_, ?_, ?_⟩ <;> simp [get_planet_positions_pure, dictGet, List.lookup]

/-- Witness for C5 at the concrete environment `envOK`. -/
theorem C5_witness :
    pdOK.lookup "Ketu" = some
      { degree := normalize_degree ((dictGet pdOK "Rahu").degree + 180),
        rashi := get_rashi (normalize_degree ((dictGet pdOK "Rahu").degree + 180)),
        retrograde := true, combust := false }
    ∧ (dictGet pdOK "Sun").combust = false
    ∧ (dictGet pdOK "Rahu").combust = false :=
  C5_ketu_derived envOK 0 pdOK get_planet_positions_envOK

/-- C6: for each of Moon, Mars, Mercury, Jupiter, Venus and Saturn the
combust flag holds iff the angular separation from the Sun —
`abs(((p - s + 180) mod 360) - 180)` — is at most 10°; the separation
metric is symmetric and lies in `[0, 180]`. -/
theorem C6_combustion (env : Env) (jd_ut : ℚ)
    (planet_data : List (String × PlanetData)) (name : String)
    (h : get_planet_positions env jd_ut = .ok planet_data)
    (hname : name ∈ ["Moon", "Mars", "Mercury", "Jupiter", "Venus", "Saturn"]) :
    (∃ k, planet_data.lookup name = some k ∧
      (k.combust = true ↔
        angular_separation k.degree (dictGet planet_data "Sun").degree ≤ 10))
    ∧ (∀ a b : ℚ, angular_separation a b = angular_separation b a)
    ∧ (∀ a b : ℚ, 0 ≤ angular_separation a b ∧ angular_separation a b ≤ 180) := by
  refine ⟨?_, fun a b => angular_separation_comm a b,
    fun a b => ⟨angular_separation_nonneg a b, angular_separation_le_180 a b⟩⟩
  obtain ⟨sun, moon, mars, mercury, jupiter, venus, saturn, rahu, rfl⟩ :=
    get_planet_positions_ok_inv env jd_ut planet_data h
  simp only [List.mem_cons, List.not_mem_nil, or_false] at hname
  rcases hname with rfl | rfl | rfl | rfl | rfl | rfl <;>
    exact ⟨_, rfl, by simp [get_planet_positions_pure, dictGet, List.lookup]⟩

/-- Witness for C6 at the concrete environment `envOK` and the Moon. -/
theorem C6_witness :
    (∃ k, pdOK.lookup "Moon" = some k ∧
      (k.combust = true ↔
        angular_separation k.degree (dictGet pdOK "Sun").degree ≤ 10))
    ∧ (∀ a b : ℚ, angular_separation a b = angular_separation b a)
    ∧ (∀ a b : ℚ, 0 ≤ angular_separation a b ∧ angular_separation a b ≤ 180) :=
  C6_combustion envOK 0 pdOK "Moon" get_planet_positions_envOK (by simp)

theorem normalize_degree_idem (d : ℚ) :
    normalize_degree (normalize_degree d) = normalize_degree d := by
  have h0 := normalize_degree_nonneg d
  have h1 := normalize_degree_lt d
  unfold normalize_degree pymod
  have hf : ⌊(d - 360 * ⌊d / 360⌋) / 360⌋ = 0 := by
    rw [Int.floor_eq_zero_iff]
    constructor
    · positivity
    · rw [div_lt_one (by norm_num)]
      unfold normalize_degree pymod at h1
      exact h1
  rw [hf]
  push_cast
  ring

theorem get_rashi_normalize (d : ℚ) :
    get_rashi (normalize_degree d) = get_rashi d := by
  unfold get_rashi rashi_index
  rw [normalize_degree_idem]

/-- C2 counterexample: with all 12 cusps at 0° the cusp-derived
`get_house_signs` yields twelve copies of "Aries" — not a permutation
of the 12 signs (it has repeats), refuting the whole-sign claim. -/
theorem C2_counterexample :
    (List.replicate 12 (0 : ℚ)).length = 12 ∧
    get_house_signs (List.replicate 12 (0 : ℚ)) = List.replicate 12 "Aries" ∧
    ¬ (get_house_signs (List.replicate 12 (0 : ℚ))).Nodup := by
  have heq : get_house_signs (List.replicate 12 (0 : ℚ))
      = List.replicate 12 "Aries" := by
    unfold get_house_signs
    norm_num [get_rashi, rashi_index, normalize_degree, pymod, RASHIS,
      List.replicate]
  refine ⟨rfl, heq, ?_⟩
  rw [heq]
  decide

/-- C2 (amended): `get_house_signs` implements the cusp-derived policy —
each house's rashi is `rashi_of` its own cusp independently, so the
result is `map get_rashi` (length-preserving, every entry one of the 12
signs) but in general not a permutation of all 12 signs. -/
theorem C2_amended_cusp_derived (house_cusps : List ℚ) :
    get_house_signs house_cusps = house_cusps.map get_rashi ∧
    (get_house_signs house_cusps).length = house_cusps.length ∧
    (get_house_signs house_cusps).all (fun s => decide (s ∈ RASHIS)) = true := by
  have hfold : ∀ (l : List ℚ) (acc : List String),
      l.foldl (fun hs c => hs ++ [get_rashi (normalize_degree c)]) acc
        = acc ++ l.map (fun c => get_rashi (normalize_degree c)) := by
    intro l
    induction l with
    | nil => intro acc; simp
    | cons c rest ih => intro acc; simp [ih]
  have hmap : get_house_signs house_cusps
      = house_cusps.map (fun c => get_rashi (normalize_degree c)) := by
    unfold get_house_signs
    simpa using hfold house_cusps []
  have hfun : (fun c => get_rashi (normalize_degree c)) = get_rashi :=
    funext fun c => get_rashi_normalize c
  refine ⟨by rw [hmap, hfun], by rw [hmap]; simp, ?_⟩
  rw [hmap, hfun]
  rw [List.all_eq_true]
  intro s hs
  obtain ⟨c, _, rfl⟩ := List.mem_map.mp hs
  simpa using get_rashi_mem c

/-- The Moon at 35° (rashi "Taurus"), as used to refute C1. -/
def moonCx : String × PlanetData :=
  ("Moon", { degree := 35, rashi := "Taurus", retrograde := false,
             combust := false })

/-- The single-planet chart used to refute C1: the Moon at 35°
(rashi "Taurus") against house signs that never mention Taurus (the
cusp-derived signs of twelve 0° cusps, all "Aries"). -/
def planetsCx : List (String × PlanetData) := [moonCx]

/-- The house-sign argument `generate_clean_json_output` would pass for
twelve 0° cusps. -/
def signsCx : List PyVal :=
  (get_house_signs (List.replicate 12 (0 : ℚ))).map PyVal.str

theorem signsCx_eval : signsCx = List.replicate 12 (PyVal.str "Aries") := by
  unfold signsCx
  norm_num [get_house_signs, get_rashi, rashi_index, normalize_degree, pymod,
    RASHIS, List.replicate]

/-- C1 counterexample: the Moon (rashi "Taurus") matches zero houses of
`signsCx`, and `assign_planets_to_houses` places it in no house at all
while returning normally — no `AssignmentError` exists in the code —
refuting "exactly one house per planet". -/
theorem C1_counterexample :
    get_rashi 35 = "Taurus" ∧
    ¬ (∀ p ∈ planetsCx, ∃ n, 1 ≤ n ∧ n ≤ 12 ∧
        p ∈ assign_planets_to_houses planetsCx signsCx n) := by
  constructor
  · norm_num [get_rashi, rashi_index, normalize_degree, pymod, RASHIS]
  · intro hall
    obtain ⟨n, _, _, hmem⟩ := hall _ (List.mem_singleton.mpr rfl)
    rw [mem_assign_iff] at hmem
    have h2 : first_match_house "Taurus" signsCx 1 = some n := hmem.2
    rw [signsCx_eval] at h2
    have hnone : first_match_house "Taurus"
        (List.replicate 12 (PyVal.str "Aries")) 1 = none := by decide
    rw [hnone] at h2
    exact absurd h2 (by simp)

/-- C1 (amended): a planet is placed in house n iff n is the first house
(1-based scan order) whose sign entry equals the planet's rashi; a
planet whose rashi matches no entry is silently placed in no house —
the function returns normally, raising nothing. -/
theorem C1_amended_first_match_or_dropped
    (planets : List (String × PlanetData)) (house_signs : List PyVal)
    (p : String × PlanetData) (hp : p ∈ planets) :
    (∀ n, p ∈ assign_planets_to_houses planets house_signs n ↔
       first_match_house p.2.rashi house_signs 1 = some n)
    ∧ (∀ n, first_match_house p.2.rashi house_signs 1 = some n →
        1 ≤ n ∧ n - 1 < house_signs.length ∧
        house_signs.get? (n - 1) = some (PyVal.str p.2.rashi) ∧
        ∀ j, j < n - 1 → house_signs.get? j ≠ some (PyVal.str p.2.rashi))
    ∧ (first_match_house p.2.rashi house_signs 1 = none →
        ∀ n, p ∉ assign_planets_to_houses planets house_signs n) := by
  refine ⟨?_, ?_, ?_⟩
  · intro n
    rw [mem_assign_iff]
    simp [hp]
  · intro n h
    obtain ⟨h1, h2, h3, h4⟩ := first_match_house_spec p.2.rashi house_signs 1 n h
    exact ⟨h1, by simpa using h2, h3, h4⟩
  · intro hnone n hmem
    rw [mem_assign_iff] at hmem
    rw [hnone] at hmem
    exact absurd hmem.2 (by simp)

/-- Witness for the amended C1 at the concrete chart `planetsCx` /
`signsCx`: the zero-match Moon lands in no house. -/
theorem C1_witness :
    moonCx ∈ planetsCx ∧
    moonCx ∉ assign_planets_to_houses planetsCx signsCx 1 := by
  have hfm : first_match_house "Taurus" signsCx 1 = none := by
    rw [signsCx_eval]
    decide
  exact ⟨List.mem_singleton.mpr rfl,
    (C1_amended_first_match_or_dropped planetsCx signsCx _
      (List.mem_singleton.mpr rfl)).2.2 hfm 1⟩

/-- C3 (amended): an input whose place cannot be geocoded makes
`get_location_details` raise `ValueError("Could not geocode place:
...")`, which `generate_clean_json_output` swallows into the generic
`"Miscalculation"` structure — no chart is returned, but no typed
`PlaceNotFound` error is surfaced either. -/
theorem C3_amended_geocode_failure (env : Env) (birth_data : Option ReqData)
    (h : env.geocode ((extract_birth_fields birth_data).1 ++ ", India") = none) :
    get_location_details env (extract_birth_fields birth_data).1
        (extract_birth_fields birth_data).2.1
        (extract_birth_fields birth_data).2.2.1
      = .error (.valueError ("Could not geocode place: "
          ++ (extract_birth_fields birth_data).1))
    ∧ generate_clean_json_output env birth_data = miscalculation_result := by
  have hloc : get_location_details env (extract_birth_fields birth_data).1
      (extract_birth_fields birth_data).2.1
      (extract_birth_fields birth_data).2.2.1
    = .error (.valueError ("Could not geocode place: "
        ++ (extract_birth_fields birth_data).1)) := by
    unfold get_location_details
    rw [h]
  refine ⟨hloc, ?_⟩
  have hbody : clean_json_body env birth_data
      = .error (.valueError ("Could not geocode place: "
          ++ (extract_birth_fields birth_data).1)) := by
    simp only [clean_json_body]
    rw [hloc, except_bind_err]
  unfold generate_clean_json_output
  rw [hbody]

/-- Witness for the amended C3: the all-`None` geocoder `envNoGeo` on the
default request. -/
theorem C3_witness :
    get_location_details envNoGeo (extract_birth_fields (some reqSam)).1
        (extract_birth_fields (some reqSam)).2.1
        (extract_birth_fields (some reqSam)).2.2.1
      = .error (.valueError ("Could not geocode place: "
          ++ (extract_birth_fields (some reqSam)).1))
    ∧ generate_clean_json_output envNoGeo (some reqSam) = miscalculation_result :=
  C3_amended_geocode_failure envNoGeo (some reqSam) rfl

/-- C3 counterexample: on a geocode failure the caller of
`generate_clean_json_output` receives the generic `"Miscalculation"`
tag, not a `PlaceNotFound`-typed error, refuting the claim as
stated. -/
theorem C3_counterexample :
    generate_clean_json_output envNoGeo (some reqSam) = miscalculation_result ∧
    (generate_clean_json_output envNoGeo (some reqSam)).error
      = some "Miscalculation" ∧
    (generate_clean_json_output envNoGeo (some reqSam)).error
      ≠ some "PlaceNotFound" := by
  refine ⟨rfl, rfl, ?_⟩
  rw [show generate_clean_json_output envNoGeo (some reqSam)
      = miscalculation_result from rfl]
  simp [miscalculation_result]

/-- C4: `generate_clean_json_output` either returns exactly the
`"Miscalculation"` error structure (whenever any pipeline step raises)
or a fully computed chart: no error marker, twelve houses numbered
1..12 — never a partial chart. -/
theorem C4_miscalculation_or_full_chart (env : Env) (birth_data : Option ReqData) :
    generate_clean_json_output env birth_data = miscalculation_result ∨
    (clean_json_body env birth_data
        = .ok (generate_clean_json_output env birth_data)
      ∧ (generate_clean_json_output env birth_data).error = none
      ∧ (generate_clean_json_output env birth_data).houses.map
          (fun hs => hs.house_number) = (List.range 12).map (fun i => i + 1)
      ∧ (generate_clean_json_output env birth_data).houses.length = 12) := by
  rcases hbody : clean_json_body env birth_data with e | r
  · left
    unfold generate_clean_json_output
    rw [hbody]
  · right
    have hgen : generate_clean_json_output env birth_data = r := by
      unfold generate_clean_json_output
      rw [hbody]
    rw [hgen]
    refine ⟨rfl, ?_⟩
    simp only [clean_json_body] at hbody
    rcases hloc : get_location_details env (extract_birth_fields birth_data).1
        (extract_birth_fields birth_data).2.1
        (extract_birth_fields birth_data).2.2.1 with e | loc
    · rw [hloc, except_bind_err] at hbody
      exact absurd hbody (by simp)
    rw [hloc, except_bind_ok] at hbody
    rcases hpl : get_planet_positions env (get_julian_day env loc.2.2.2)
        with e | planets
    · rw [hpl, except_bind_err] at hbody
      exact absurd hbody (by simp)
    rw [hpl, except_bind_ok] at hbody
    rcases hcu : get_houses env (get_julian_day env loc.2.2.2) loc.1 loc.2.1
        with e | house_cusps
    · rw [hcu, except_bind_err] at hbody
      exact absurd hbody (by simp)
    rw [hcu, except_bind_ok] at hbody
    rcases hlg : pyIndex (get_house_signs house_cusps) 0 with e | lagna_rashi
    · rw [hlg, except_bind_err] at hbody
      exact absurd hbody (by simp)
    rw [hlg, except_bind_ok] at hbody
    rcases hhs : mapME (fun i => do
        let rashi ← pyIndex (get_house_signs house_cusps) i
        .ok ({ house_number := i + 1, rashi := rashi,
               planets := ((assign_planets_to_houses planets
                   ((get_house_signs house_cusps).map PyVal.str)) (i + 1)).map
                 (fun q =>
                   { name := q.1,
                     degree_in_sign := get_degree_within_sign q.2.degree,
                     retrograde := q.2.retrograde,
                     combust := q.2.combust }) } : HouseOut))
        (List.range 12) with e | houses
    · rw [hhs, except_bind_err] at hbody
      exact absurd hbody (by simp)
    rw [hhs, except_bind_ok] at hbody
    injection hbody with hbody
    have hnum : houses.map (fun hs => hs.house_number)
        = (List.range 12).map (fun i => i + 1) := by
      refine mapME_ok_map_rel _ (fun hs => hs.house_number) (fun i => i + 1)
        ?_ (List.range 12) houses hhs
      intro x y hxy
      rcases hpi : pyIndex (get_house_signs house_cusps) x with e | rashi
      · rw [hpi, except_bind_err] at hxy
        exact absurd hxy (by simp)
      · rw [hpi, except_bind_ok] at hxy
        injection hxy with hxy
        rw [← hxy]
    have hlen : houses.length = 12 := by
      have := congrArg List.length hnum
      simpa using this
    rw [← hbody]
    exact ⟨rfl, hnum, hlen⟩

theorem first_match_house_num_none (r : String) (cusps : List ℚ) :
    ∀ k, first_match_house r (cusps.map PyVal.num) k = none := by
  induction cusps with
  | nil => intro k; rfl
  | cons c rest ih =>
    intro k
    rw [List.map_cons, first_match_house, if_neg (by simp)]
    exact ih (k + 1)

/-- Passing raw cusp floats where sign strings are compared makes every
house's planet list empty: `str == float` never holds. -/
theorem assign_num_signs_empty (planets : List (String × PlanetData))
    (cusps : List ℚ) (n : Nat) :
    assign_planets_to_houses planets (cusps.map PyVal.num) n = [] := by
  rw [assign_planets_to_houses_eq_filter]
  rw [List.filter_eq_nil]
  intro p _
  simp [first_match_house_num_none]

/-- Whether every house entry of a `generate_kundli_data` success result
has an empty planets list (vacuously true on the failure path). -/
def kundli_houses_all_empty (o : Except PyErr KundliResult) : Bool :=
  match o with
  | .ok r => r.houses.all (fun hs => hs.planets.isEmpty)
  | .error _ => true

/-- C9: every successful `generate_kundli_data` result has an empty
planets list in each of its 12 house entries, because its line 465
passes the raw cusp-degree floats to `assign_planets_to_houses` where
sign-name strings are compared, so no planet ever matches any house. -/
theorem C9_kundli_houses_planetless (env : Env) (birth_data : Option ReqData) :
    kundli_houses_all_empty (kundli_data_body env birth_data) = true ∧
    ∀ (planets : List (String × PlanetData)) (cusps : List ℚ) (n : Nat),
      assign_planets_to_houses planets (cusps.map PyVal.num) n = [] := by
  refine ⟨?_, fun planets cusps n => assign_num_signs_empty planets cusps n⟩
  rcases hbody : kundli_data_body env birth_data with e | r
  · rfl
  · simp only [kundli_data_body] at hbody
    rcases hloc : get_location_details env (extract_birth_fields birth_data).1
        (extract_birth_fields birth_data).2.1
        (extract_birth_fields birth_data).2.2.1 with e | loc
    · rw [hloc, except_bind_err] at hbody
      exact absurd hbody (by simp)
    rw [hloc, except_bind_ok] at hbody
    rcases hpl : get_planet_positions env (get_julian_day env loc.2.2.2)
        with e | planets
    · rw [hpl, except_bind_err] at hbody
      exact absurd hbody (by simp)
    rw [hpl, except_bind_ok] at hbody
    rcases hcu : get_houses env (get_julian_day env loc.2.2.2) loc.1 loc.2.1
        with e | house_cusps
    · rw [hcu, except_bind_err] at hbody
      exact absurd hbody (by simp)
    rw [hcu, except_bind_ok] at hbody
    rcases hhs : mapME (fun i => do
        let rashi ← pyIndex (get_house_signs house_cusps) i
        .ok ({ house_number := i + 1, rashi := rashi,
               planets := ((assign_planets_to_houses planets
                   (house_cusps.map PyVal.num)) (i + 1)).map
                 (fun q =>
                   { name := q.1,
                     degree := round2 (get_degree_within_sign q.2.degree),
                     retrograde := q.2.retrograde,
                     combust := q.2.combust }) } : KHouse))
        (List.range 12) with e | houses
    · rw [hhs, except_bind_err] at hbody
      exact absurd hbody (by simp)
    rw [hhs, except_bind_ok] at hbody
    injection hbody with hbody
    have hall : ∀ hs ∈ houses, hs.planets.isEmpty = true := by
      refine mapME_ok_forall _ (fun hs => hs.planets.isEmpty = true)
        ?_ (List.range 12) houses hhs
      intro x y hxy
      rcases hpi : pyIndex (get_house_signs house_cusps) x with e | rashi
      · rw [hpi, except_bind_err] at hxy
        exact absurd hxy (by simp)
      · rw [hpi, except_bind_ok] at hxy
        injection hxy with hxy
        rw [← hxy]
        simp [assign_num_signs_empty]
    unfold kundli_houses_all_empty
    rw [← hbody]
    simp only [List.all_eq_true]
    intro hs hmem
    exact hall hs hmem

/-- C10: `main` called with no (or a falsy) `birth_data` only prints a
table and returns `None`, so the GET `/kundli` response carries
`kundli_data = null` instead of the default-profile chart. -/
theorem C10_get_kundli_data_null (env : Env) :
    Kundli.main env none = none ∧
    Kundli.main env (some []) = none ∧
    (kundli_get env).kundli_data = none :=
  ⟨rfl, rfl, rfl⟩

/-- C8: a parsed POST body missing a required field (here `place`) is
rejected by the handler with a 400 validation message before any
astronomical computation — the response is the same for every
environment, so no collaborator is ever consulted — even though the
chart generator itself declares defaults for every field
(day "09", month "10", year "1995", hour "08", minute "22",
place "Samastipur"). -/
theorem C8_missing_field_validation (env env2 : Env) (data_json : ReqData)
    (h : data_json.lookup "place" = none) :
    (∃ msg, kundli_post env data_json = .clientError msg)
    ∧ kundli_post env data_json = kundli_post env2 data_json
    ∧ ∀ bd : ReqData, ¬ bd.isEmpty = true →
        (∀ f ∈ REQUIRED_FIELDS, bd.lookup f = none) →
        extract_birth_fields (some bd)
          = ("Samastipur", "1995-10-09", "08:22", "09-10-1995") := by
  have hmiss : "place" ∈ REQUIRED_FIELDS.filter
      (fun f => (data_json.lookup f).isNone) := by
    rw [List.mem_filter]
    refine ⟨by simp [REQUIRED_FIELDS], by simp [h]⟩
  have hne : ¬ (REQUIRED_FIELDS.filter
      (fun f => (data_json.lookup f).isNone)).isEmpty = true := by
    intro hc
    rw [List.isEmpty_iff] at hc
    rw [hc] at hmiss
    exact absurd hmiss (List.not_mem_nil _)
  have hgen : ∀ e : Env, kundli_post e data_json =
      if data_json.isEmpty then
        ApiResponse.clientError "No JSON data provided or empty JSON"
      else if data_json.any (fun kv => contains_variable_id kv.2) then
        ApiResponse.clientError "Voiceflow template variables detected. Please ensure variables are properly resolved before sending to API."
      else
        ApiResponse.clientError ("Missing required fields: "
          ++ String.intercalate ", " (REQUIRED_FIELDS.filter
              (fun f => (data_json.lookup f).isNone))) := by
    intro e
    simp only [kundli_post]
    by_cases h1 : data_json.isEmpty = true
    · rw [if_pos h1, if_pos h1]
    · rw [if_neg h1, if_neg h1]
      by_cases h2 : data_json.any (fun kv => contains_variable_id kv.2) = true
      · rw [if_pos h2, if_pos h2]
      · rw [if_neg h2, if_neg h2, if_pos hne]
  refine ⟨?_, by rw [hgen env, hgen env2], ?_⟩
  · rw [hgen env]
    split
    · exact ⟨_, rfl⟩
    · split
      · exact ⟨_, rfl⟩
      · exact ⟨_, rfl⟩
  · intro bd hbd hnone
    have hp := hnone "place" (by simp [REQUIRED_FIELDS])
    have hd := hnone "ddd" (by simp [REQUIRED_FIELDS])
    have hm := hnone "mmm" (by simp [REQUIRED_FIELDS])
    have hy := hnone "yyyy" (by simp [REQUIRED_FIELDS])
    have hhh := hnone "hh" (by simp [REQUIRED_FIELDS])
    have hmm := hnone "mm" (by simp [REQUIRED_FIELDS])
    simp only [extract_birth_fields]
    rw [if_neg hbd, hp, hd, hm, hy, hhh, hmm]
    rfl

/-- The body `{"ddd": "09"}` with no `place`, used as the C8 witness
input. -/
def reqMissingPlace : ReqData := [("ddd", "09")]

/-- Witness for C8 at the concrete body `reqMissingPlace` and two
different environments. -/
theorem C8_witness :
    (∃ msg, kundli_post envOK reqMissingPlace = .clientError msg)
    ∧ kundli_post envOK reqMissingPlace = kundli_post envNoGeo reqMissingPlace
    ∧ ∀ bd : ReqData, ¬ bd.isEmpty = true →
        (∀ f ∈ REQUIRED_FIELDS, bd.lookup f = none) →
        extract_birth_fields (some bd)
          = ("Samastipur", "1995-10-09", "08:22", "09-10-1995") :=
  C8_missing_field_validation envOK envNoGeo reqMissingPlace rfl
